import Mathlib

/-!
Verification development for the streaming provider layer of the
Roo-Cline repository: `src/api/providers/anthropic.ts` (which contains two
handler variants, the original `AnthropicHandler` and a duplicate variant,
modelled here under the names `AnthropicHandler` and `AnthropicHandlerV2`)
and `src/api/providers/openai.ts` (`OpenAiHandler`).

The decoders are embedded as pure functions from a list of backend chunks
to the list of canonical events yielded by `createMessage`, with the
generator's mutable closure variables carried as explicit decode state.
The request builders are embedded as pure functions producing a wire
request record.  JavaScript idioms are embedded explicitly: `x || 0`,
`x || undefined`, `arr[i] ?? -1` each get a small `js...` helper whose
definition matches the JavaScript truthiness semantics.
-/

/-- Canonical streamed event: the `ApiStream` chunks yielded by
`createMessage` (`{type:"text", text}` and
`{type:"usage", inputTokens, outputTokens, cacheWriteTokens?, cacheReadTokens?}`). -/
inductive ApiStreamChunk : Type
  | text (text : String)
  | usage (inputTokens outputTokens : Nat)
      (cacheWriteTokens cacheReadTokens : Option Nat)
deriving DecidableEq, Repr

/-- Predicate for a text event. -/
def isTextEvent : ApiStreamChunk → Bool
  | .text _ => true
  | _ => false

/-- Predicate for a usage event. -/
def isUsageEvent : ApiStreamChunk → Bool
  | .usage _ _ _ _ => true
  | _ => false

/-- JavaScript `x || undefined` on an optional number: `0`, `null` and
`undefined` are all falsy, so a zero or absent count becomes `undefined`. -/
def jsOrUndefined : Option Nat → Option Nat
  | some n => if n = 0 then none else some n
  | none => none

/-- JavaScript `x || d` on an optional number: `0`, `null` and `undefined`
fall back to the default `d`. -/
def jsOrNat : Option Nat → Nat → Nat
  | some n, d => if n = 0 then d else n
  | none, d => d

/-- Usage snapshot carried by a `message_start` chunk
(`chunk.message.usage` of the Anthropic SDK): token counts plus the two
optional prompt-caching counts. -/
structure StartUsage : Type where
  input_tokens : Nat
  output_tokens : Nat
  cache_creation_input_tokens : Option Nat
  cache_read_input_tokens : Option Nat
deriving DecidableEq, Repr

/-- Content block carried by a `content_block_start` chunk: the decoders
only inspect blocks of type `"text"`; every other block type falls through
their `switch`. -/
inductive ContentBlock : Type
  | text (text : String)
  | other
deriving DecidableEq, Repr

/-- Delta carried by a `content_block_delta` chunk; only `"text_delta"` is
inspected by the decoders. -/
inductive RawDelta : Type
  | text_delta (text : String)
  | other
deriving DecidableEq, Repr

/-- Backend chunk taxonomy of the Anthropic streaming protocol, as consumed
by both handler variants' decode loops. -/
inductive AnthropicChunk : Type
  | message_start (usage : StartUsage)
  | message_delta (output_tokens : Nat)
  | message_stop
  | content_block_start (index : Nat) (content_block : ContentBlock)
  | content_block_delta (delta : RawDelta)
  | content_block_stop
deriving DecidableEq, Repr

/-- The `Usage` interface of the original variant (anthropic.ts lines
15-20): running token totals with optional cache counts. -/
structure Usage : Type where
  inputTokens : Nat
  outputTokens : Nat
  cacheWriteTokens : Option Nat := none
  cacheReadTokens : Option Nat := none
deriving DecidableEq, Repr

/-- The `createUsage` initializer of the original variant. -/
def createUsage : Usage := { inputTokens := 0, outputTokens := 0 }

/-- Mutable closure variables of the original variant's decode loop:
`usage`, `accumulatedText`, `currentBlockText`, `isFirstBlock`. -/
structure AnthropicHandler.DecodeState : Type where
  usage : Usage
  accumulatedText : String
  currentBlockText : String
  isFirstBlock : Bool
deriving DecidableEq, Repr

/-- Initial decode state of the original variant. -/
def AnthropicHandler.initDecodeState : AnthropicHandler.DecodeState :=
  { usage := createUsage, accumulatedText := "", currentBlockText := "",
    isFirstBlock := true }

/-- One iteration of the original variant's `for await` loop
(anthropic.ts lines 131-178): returns the updated closure state and the
events yielded for this chunk.  Note that `content_block_start` and
`content_block_delta` only update buffers and yield nothing, and
`message_stop` yields the accumulated text when it is non-empty. -/
def AnthropicHandler.step (s : AnthropicHandler.DecodeState) :
    AnthropicChunk → AnthropicHandler.DecodeState × List ApiStreamChunk
  | .message_start u =>
      ({ s with usage :=
          { inputTokens := u.input_tokens,
            outputTokens := u.output_tokens,
            cacheWriteTokens := jsOrUndefined u.cache_creation_input_tokens,
            cacheReadTokens := jsOrUndefined u.cache_read_input_tokens } }, [])
  | .message_delta n =>
      (if n = 0 then s
       else { s with usage :=
          { s.usage with outputTokens := s.usage.outputTokens + n } }, [])
  | .message_stop =>
      (s, if s.accumulatedText = "" then []
          else [.text s.accumulatedText])
  | .content_block_start _ cb =>
      (match cb with
       | .text t =>
         { s with
           accumulatedText :=
             if s.isFirstBlock then s.accumulatedText
             else s.accumulatedText ++ "\n",
           currentBlockText := t,
           isFirstBlock := false }
       | .other => s, [])
  | .content_block_delta d =>
      (match d with
       | .text_delta t =>
         { s with currentBlockText := s.currentBlockText ++ t }
       | .other => s, [])
  | .content_block_stop =>
      ({ s with
         accumulatedText := s.accumulatedText ++ s.currentBlockText,
         currentBlockText := "" }, [])

/-- The original variant's decode loop over a whole chunk sequence. -/
def AnthropicHandler.run (s : AnthropicHandler.DecodeState) :
    List AnthropicChunk → AnthropicHandler.DecodeState × List ApiStreamChunk
  | [] => (s, [])
  | c :: cs =>
      let p := AnthropicHandler.step s c
      let q := AnthropicHandler.run p.1 cs
      (q.1, p.2 ++ q.2)

/-- Canonical event sequence yielded by the original variant's
`createMessage` for a given backend chunk sequence: the loop's events
followed by the single final usage event built from the terminal usage
state (anthropic.ts lines 180-186). -/
def AnthropicHandler.createMessage (chunks : List AnthropicChunk) :
    List ApiStreamChunk :=
  let r := AnthropicHandler.run AnthropicHandler.initDecodeState chunks
  r.2 ++ [.usage r.1.usage.inputTokens r.1.usage.outputTokens
            (jsOrUndefined r.1.usage.cacheWriteTokens)
            (jsOrUndefined r.1.usage.cacheReadTokens)]

/-- Mutable closure variables of the duplicate variant's decode loop:
`fullText` and `usageData`. -/
structure AnthropicHandlerV2.DecodeState : Type where
  fullText : String
  usageData : Usage
deriving DecidableEq, Repr

/-- Initial decode state of the duplicate variant. -/
def AnthropicHandlerV2.initDecodeState : AnthropicHandlerV2.DecodeState :=
  { fullText := "", usageData := { inputTokens := 0, outputTokens := 0 } }

/-- One iteration of the duplicate variant's `for await` loop
(anthropic.ts lines 309-361): `message_start` overwrites the usage data and
immediately yields a usage event; `message_delta` overwrites the output
token count; a text `content_block_start` yields a newline separator when
`chunk.index > 0` and then the block's inline text; a `text_delta` is
yielded immediately; `message_stop` and `content_block_stop` yield
nothing. -/
def AnthropicHandlerV2.step (s : AnthropicHandlerV2.DecodeState) :
    AnthropicChunk → AnthropicHandlerV2.DecodeState × List ApiStreamChunk
  | .message_start u =>
      let ud : Usage :=
        { inputTokens := u.input_tokens,
          outputTokens := u.output_tokens,
          cacheWriteTokens := jsOrUndefined u.cache_creation_input_tokens,
          cacheReadTokens := jsOrUndefined u.cache_read_input_tokens }
      ({ s with usageData := ud },
       [.usage ud.inputTokens ud.outputTokens ud.cacheWriteTokens
          ud.cacheReadTokens])
  | .message_delta n =>
      ({ s with usageData := { s.usageData with outputTokens := n } }, [])
  | .message_stop => (s, [])
  | .content_block_start idx cb =>
      match cb with
      | .text t =>
          if 0 < idx then
            ({ s with fullText := s.fullText ++ "\n" ++ t },
             [.text "\n", .text t])
          else
            ({ s with fullText := s.fullText ++ t }, [.text t])
      | .other => (s, [])
  | .content_block_delta d =>
      match d with
      | .text_delta t =>
          ({ s with fullText := s.fullText ++ t }, [.text t])
      | .other => (s, [])
  | .content_block_stop => (s, [])

/-- The duplicate variant's decode loop over a whole chunk sequence. -/
def AnthropicHandlerV2.run (s : AnthropicHandlerV2.DecodeState) :
    List AnthropicChunk → AnthropicHandlerV2.DecodeState × List ApiStreamChunk
  | [] => (s, [])
  | c :: cs =>
      let p := AnthropicHandlerV2.step s c
      let q := AnthropicHandlerV2.run p.1 cs
      (q.1, p.2 ++ q.2)

/-- Canonical event sequence yielded by the duplicate variant's
`createMessage`: only the loop's events — at the natural end of the chunk
sequence this variant yields nothing further (it only `return`s a tracing
summary, which is not part of the yielded stream). -/
def AnthropicHandlerV2.createMessage (chunks : List AnthropicChunk) :
    List ApiStreamChunk :=
  (AnthropicHandlerV2.run AnthropicHandlerV2.initDecodeState chunks).2

/-- Delta payload of an OpenAI streaming chunk's first choice. -/
structure OpenAiDelta : Type where
  content : Option String
deriving DecidableEq, Repr

/-- One choice of an OpenAI streaming chunk; `delta` is reached through the
optional chain `chunk.choices[0]?.delta`. -/
structure OpenAiChoice : Type where
  delta : Option OpenAiDelta
deriving DecidableEq, Repr

/-- Usage object optionally carried by an OpenAI streaming chunk. -/
structure OpenAiUsage : Type where
  prompt_tokens : Option Nat
  completion_tokens : Option Nat
deriving DecidableEq, Repr

/-- One OpenAI streaming chunk as consumed by `OpenAiHandler.createMessage`. -/
structure OpenAiChunk : Type where
  choices : List OpenAiChoice
  usage : Option OpenAiUsage
deriving DecidableEq, Repr

/-- Body of the `for await` loop of `OpenAiHandler.createMessage`
(openai.ts lines 64-79): the events yielded for one chunk — a text event
when `chunk.choices[0]?.delta?.content` is truthy (a non-empty string),
then a usage event when `chunk.usage` is present, built from that chunk's
absolute counts with `|| 0` fallbacks. -/
def OpenAiHandler.chunkEvents (c : OpenAiChunk) : List ApiStreamChunk :=
  (match c.choices.head? with
   | some choice =>
       match choice.delta with
       | some d =>
           match d.content with
           | some t => if t = "" then [] else [.text t]
           | none => []
       | none => []
   | none => [])
  ++ (match c.usage with
      | some u =>
          [.usage (u.prompt_tokens.getD 0) (u.completion_tokens.getD 0)
             none none]
      | none => [])

/-- Canonical event sequence yielded by `OpenAiHandler.createMessage`: the
per-chunk events in order; nothing further at stream end. -/
def OpenAiHandler.createMessage : List OpenAiChunk → List ApiStreamChunk
  | [] => []
  | c :: cs => OpenAiHandler.chunkEvents c ++ OpenAiHandler.createMessage cs

/-- Follows the spec's words (claim C6): the events contributed by one
chunk of the simple backend family — a `TextEvent` when the first choice's
delta content is a non-empty string, and a `UsageEvent` from the chunk's
absolute counts when it carries a usage object. -/
def specOpenAiChunkEvents (c : OpenAiChunk) : List ApiStreamChunk :=
  (match (c.choices.head?.bind OpenAiChoice.delta).bind OpenAiDelta.content with
   | some t => if t ≠ "" then [.text t] else []
   | none => [])
  ++ (match c.usage with
      | some u =>
          [.usage (u.prompt_tokens.getD 0) (u.completion_tokens.getD 0)
             none none]
      | none => [])

/-- Follows the spec's words (claim C1): after the first usage event of the
stream, no further text event occurs. -/
def noTextAfterUsage : List ApiStreamChunk → Bool
  | [] => true
  | e :: rest =>
      if isUsageEvent e then rest.all fun x => !isTextEvent x
      else noTextAfterUsage rest

/-- Follows the spec's words (claim C1): the stream contains exactly one
usage event, positioned at or after the last text event. -/
def terminalUsageOnce (es : List ApiStreamChunk) : Bool :=
  decide (es.countP isUsageEvent = 1) && noTextAfterUsage es

/-- Checks that no usage event of the stream reports a cache token count of
zero: a zero count must have been mapped to an absent field (claim C10). -/
def noZeroCacheTokens (es : List ApiStreamChunk) : Bool :=
  es.all fun e =>
    match e with
    | .usage _ _ cw cr => decide (cw ≠ some 0) && decide (cr ≠ some 0)
    | _ => true

/-- The original variant's loop body only ever yields text events; every
usage information is withheld until the terminal event. -/
lemma anthropicStep_all_text (s : AnthropicHandler.DecodeState)
    (c : AnthropicChunk) :
    ((AnthropicHandler.step s c).2).all isTextEvent = true := by
  cases c with
  | message_start u => rfl
  | message_delta n => rfl
  | message_stop =>
      by_cases h : s.accumulatedText = "" <;>
        simp [AnthropicHandler.step, h, isTextEvent]
  | content_block_start idx cb => cases cb <;> rfl
  | content_block_delta d => cases d <;> rfl
  | content_block_stop => rfl

/-- The original variant's whole decode loop only yields text events. -/
lemma anthropicRun_all_text (cs : List AnthropicChunk) :
    ∀ s : AnthropicHandler.DecodeState,
      ((AnthropicHandler.run s cs).2).all isTextEvent = true := by
  induction cs with
  | nil => intro s; rfl
  | cons c cs ih =>
      intro s
      simp [AnthropicHandler.run, List.all_append, anthropicStep_all_text, ih]

/-- A text event is not a usage event. -/
lemma isUsageEvent_eq_false_of_text (e : ApiStreamChunk)
    (h : isTextEvent e = true) : isUsageEvent e = false := by
  cases e with
  | text t => rfl
  | usage a b c d => simp [isTextEvent] at h

/-- Appending a single usage event to a text-only stream gives a stream
with exactly one usage event, after every text event. -/
lemma terminalUsageOnce_text_append (es : List ApiStreamChunk)
    (h : es.all isTextEvent = true) (i o : Nat) (cw cr : Option Nat) :
    terminalUsageOnce (es ++ [.usage i o cw cr]) = true := by
  induction es with
  | nil => rfl
  | cons e es ih =>
      rw [List.all_cons, Bool.and_eq_true] at h
      have hu : isUsageEvent e = false := isUsageEvent_eq_false_of_text e h.1
      have ihe := ih h.2
      simp only [terminalUsageOnce, List.cons_append, List.countP_cons, hu,
        noTextAfterUsage, Bool.false_eq_true, if_false, Bool.and_eq_true,
        decide_eq_true_eq] at ihe ⊢
      simpa using ihe

/-- The `jsOrUndefined` coercion can never produce a present zero. -/
lemma jsOrUndefined_ne_zero (x : Option Nat) : jsOrUndefined x ≠ some 0 := by
  cases x with
  | none => simp [jsOrUndefined]
  | some n => by_cases h : n = 0 <;> simp [jsOrUndefined, h]

/-- A text-only stream trivially reports no zero cache count. -/
lemma allText_noZeroCache (es : List ApiStreamChunk)
    (h : es.all isTextEvent = true) : noZeroCacheTokens es = true := by
  induction es with
  | nil => rfl
  | cons e es ih =>
      rw [List.all_cons, Bool.and_eq_true] at h
      cases e with
      | text t =>
          simpa [noZeroCacheTokens, List.all_cons] using ih h.2
      | usage a b c d => simp [isTextEvent] at h


/-- The zero-cache-count check distributes over append. -/
lemma noZeroCacheTokens_append (a b : List ApiStreamChunk) :
    noZeroCacheTokens (a ++ b)
      = (noZeroCacheTokens a && noZeroCacheTokens b) := by
  simp [noZeroCacheTokens, List.all_append]

/-- One step of the original variant preserves absence of zero cache
counts in the usage state: `message_start` installs `jsOrUndefined`
values, every other chunk leaves the cache fields untouched. -/
lemma anthropicStep_cache_state (s : AnthropicHandler.DecodeState)
    (c : AnthropicChunk)
    (h1 : s.usage.cacheWriteTokens ≠ some 0)
    (h2 : s.usage.cacheReadTokens ≠ some 0) :
    (AnthropicHandler.step s c).1.usage.cacheWriteTokens ≠ some 0
    ∧ (AnthropicHandler.step s c).1.usage.cacheReadTokens ≠ some 0 := by
  cases c with
  | message_start u =>
      exact ⟨jsOrUndefined_ne_zero _, jsOrUndefined_ne_zero _⟩
  | message_delta n =>
      by_cases hn : n = 0 <;> simp [AnthropicHandler.step, hn, h1, h2]
  | message_stop => exact ⟨h1, h2⟩
  | content_block_start idx cb => cases cb <;> exact ⟨h1, h2⟩
  | content_block_delta d => cases d <;> exact ⟨h1, h2⟩
  | content_block_stop => exact ⟨h1, h2⟩

/-- The original variant's decode loop preserves absence of zero cache
counts in the usage state. -/
lemma anthropicRun_cache_state (cs : List AnthropicChunk) :
    ∀ s : AnthropicHandler.DecodeState,
      s.usage.cacheWriteTokens ≠ some 0 → s.usage.cacheReadTokens ≠ some 0 →
      (AnthropicHandler.run s cs).1.usage.cacheWriteTokens ≠ some 0
      ∧ (AnthropicHandler.run s cs).1.usage.cacheReadTokens ≠ some 0 := by
  induction cs with
  | nil => intro s h1 h2; exact ⟨h1, h2⟩
  | cons c cs ih =>
      intro s h1 h2
      have hs := anthropicStep_cache_state s c h1 h2
      simpa [AnthropicHandler.run] using
        ih (AnthropicHandler.step s c).1 hs.1 hs.2

/-- One step of the duplicate variant yields no usage event carrying a
present zero cache count, and preserves absence of zero cache counts in
the usage state. -/
lemma anthropicV2Step_cache (s : AnthropicHandlerV2.DecodeState)
    (c : AnthropicChunk)
    (h1 : s.usageData.cacheWriteTokens ≠ some 0)
    (h2 : s.usageData.cacheReadTokens ≠ some 0) :
    noZeroCacheTokens (AnthropicHandlerV2.step s c).2 = true
    ∧ (AnthropicHandlerV2.step s c).1.usageData.cacheWriteTokens ≠ some 0
    ∧ (AnthropicHandlerV2.step s c).1.usageData.cacheReadTokens ≠ some 0 := by
  cases c with
  | message_start u =>
      refine ⟨?_, jsOrUndefined_ne_zero _, jsOrUndefined_ne_zero _⟩
      simp [AnthropicHandlerV2.step, noZeroCacheTokens, jsOrUndefined_ne_zero]
  | message_delta n => exact ⟨rfl, h1, h2⟩
  | message_stop => exact ⟨rfl, h1, h2⟩
  | content_block_start idx cb =>
      cases cb with
      | text t =>
          by_cases hi : 0 < idx <;>
            simp [AnthropicHandlerV2.step, hi, noZeroCacheTokens, h1, h2]
      | other => exact ⟨rfl, h1, h2⟩
  | content_block_delta d =>
      cases d with
      | text_delta t => exact ⟨rfl, h1, h2⟩
      | other => exact ⟨rfl, h1, h2⟩
  | content_block_stop => exact ⟨rfl, h1, h2⟩

/-- The duplicate variant's decode loop yields no usage event carrying a
present zero cache count, and preserves absence of zero cache counts in
the usage state. -/
lemma anthropicV2Run_cache (cs : List AnthropicChunk) :
    ∀ s : AnthropicHandlerV2.DecodeState,
      s.usageData.cacheWriteTokens ≠ some 0 →
      s.usageData.cacheReadTokens ≠ some 0 →
      noZeroCacheTokens (AnthropicHandlerV2.run s cs).2 = true
      ∧ (AnthropicHandlerV2.run s cs).1.usageData.cacheWriteTokens ≠ some 0
      ∧ (AnthropicHandlerV2.run s cs).1.usageData.cacheReadTokens ≠ some 0 := by
  induction cs with
  | nil => intro s h1 h2; exact ⟨rfl, h1, h2⟩
  | cons c cs ih =>
      intro s h1 h2
      have hs := anthropicV2Step_cache s c h1 h2
      have hr := ih (AnthropicHandlerV2.step s c).1 hs.2.1 hs.2.2
      refine ⟨?_, ?_, ?_⟩
      · have : noZeroCacheTokens
            ((AnthropicHandlerV2.step s c).2
              ++ (AnthropicHandlerV2.run (AnthropicHandlerV2.step s c).1 cs).2)
            = true := by
          rw [noZeroCacheTokens_append, hs.1, hr.1]; rfl
        simpa [AnthropicHandlerV2.run] using this
      · simpa [AnthropicHandlerV2.run] using hr.2.1
      · simpa [AnthropicHandlerV2.run] using hr.2.2

/-- C1 (amended): only the original Anthropic handler variant guarantees
the property — its `createMessage` yields exactly one usage event,
positioned after every text event, appended at the natural end of the
chunk sequence and built from the terminal usage state; the loop itself
yields text events only. -/
theorem c1_terminal_usage_original (chunks : List AnthropicChunk) :
    terminalUsageOnce (AnthropicHandler.createMessage chunks) = true
    ∧ ((AnthropicHandler.run AnthropicHandler.initDecodeState chunks).2).all
        isTextEvent = true := by
  refine ⟨?_, anthropicRun_all_text chunks _⟩
  exact terminalUsageOnce_text_append _ (anthropicRun_all_text chunks _) _ _ _ _

/-- C1 counterexample: the claim quantifies over both Anthropic variants
and the OpenAI handler, but the duplicate Anthropic variant yields its only
usage event at `message_start`, before the text that follows (and yields no
terminal usage event), and the OpenAI handler yields no usage event at all
when no chunk carries usage; at these concrete inputs the property
"exactly one usage event at or after the last text event" is false. -/
theorem c1_counterexample :
    terminalUsageOnce (AnthropicHandlerV2.createMessage
      [.message_start ⟨5, 0, none, none⟩,
       .content_block_start 0 (.text "A")]) = false
    ∧ terminalUsageOnce (OpenAiHandler.createMessage
        [⟨[⟨some ⟨some "Hi"⟩⟩], none⟩]) = false := by decide

/-- C3 (amended): the duplicate variant yields, for every `text_delta`
chunk, immediately one text event holding exactly the delta text; the
original variant yields nothing for a `text_delta` chunk and only appends
the delta text to its block buffer (to be yielded coalesced later). -/
theorem c3_delta_emission (s2 : AnthropicHandlerV2.DecodeState)
    (s1 : AnthropicHandler.DecodeState) (t : String)
    (cs : List AnthropicChunk) :
    (AnthropicHandlerV2.run s2
        (.content_block_delta (.text_delta t) :: cs)).2
      = .text t :: (AnthropicHandlerV2.run
          { s2 with fullText := s2.fullText ++ t } cs).2
    ∧ (AnthropicHandler.run s1
        (.content_block_delta (.text_delta t) :: cs)).2
      = (AnthropicHandler.run
          { s1 with currentBlockText := s1.currentBlockText ++ t } cs).2 := by
  constructor
  · simp [AnthropicHandlerV2.run, AnthropicHandlerV2.step]
  · simp [AnthropicHandler.run, AnthropicHandler.step]

/-- C3 counterexample: on the original variant, the delta text `"!"` is
coalesced into the block text `"A!"` and never yielded as its own text
event, contradicting the claim that every `text_delta` chunk immediately
yields a text event with exactly the delta text. -/
theorem c3_counterexample :
    AnthropicHandler.createMessage
      [.content_block_start 0 (.text "A"),
       .content_block_delta (.text_delta "!"),
       .content_block_stop, .message_stop]
      = [.text "A!", .usage 0 0 none none]
    ∧ (AnthropicHandler.createMessage
        [.content_block_start 0 (.text "A"),
         .content_block_delta (.text_delta "!"),
         .content_block_stop, .message_stop]).contains
          (ApiStreamChunk.text "!") = false := by decide

/-- C5: evaluating the original variant at the failing input — a
`message_start` carrying 3 output tokens followed by a `message_delta`
carrying 5 — shows its usage state accumulating to 8 (addition), while the
duplicate variant overwrites the count to 5 as the claim states. -/
theorem c5_message_delta_accumulates :
    AnthropicHandler.createMessage
      [.message_start ⟨10, 3, none, none⟩, .message_delta 5]
      = [.usage 10 8 none none]
    ∧ (AnthropicHandlerV2.run AnthropicHandlerV2.initDecodeState
        [.message_start ⟨10, 3, none, none⟩,
         .message_delta 5]).1.usageData.outputTokens = 5 := by decide

/-- C6: the OpenAI decoder is chunk-local — its output is exactly the
concatenation over chunks of the events the spec predicts per chunk (one
text event for a truthy first-choice delta content, one usage event built
from the chunk's absolute counts) — and the spec's Scenario A evaluates as
claimed. -/
theorem c6_simple_backend_decoding :
    (∀ chunks : List OpenAiChunk,
        OpenAiHandler.createMessage chunks
          = (chunks.map specOpenAiChunkEvents).flatten)
    ∧ OpenAiHandler.createMessage
        [⟨[⟨some ⟨some "Hel"⟩⟩], none⟩, ⟨[⟨some ⟨some "lo"⟩⟩], none⟩,
         ⟨[], some ⟨some 10, some 2⟩⟩]
        = [.text "Hel", .text "lo", .usage 10 2 none none] := by
  have hchunk : ∀ c : OpenAiChunk,
      OpenAiHandler.chunkEvents c = specOpenAiChunkEvents c := by
    intro c
    unfold OpenAiHandler.chunkEvents specOpenAiChunkEvents
    cases hc : c.choices.head? with
    | none => simp [hc]
    | some choice =>
        cases hd : choice.delta with
        | none => simp [hc, hd]
        | some d =>
            cases ht : d.content with
            | none => simp [hc, hd, ht]
            | some t => by_cases h : t = "" <;> simp [hc, hd, ht, h]
  constructor
  · intro chunks
    induction chunks with
    | nil => rfl
    | cons c cs ih => simp [OpenAiHandler.createMessage, hchunk, ih]
  · decide

/-- C7 (amended): on a text `content_block_start`, the duplicate variant
yields one newline text event exactly when the chunk's `index` field is
positive (not when a block was previously emitted), then immediately one
text event with the block's inline text; the original variant yields
nothing at `content_block_start` — it buffers the inline text, prefixing a
newline to its accumulated text when a text block was already seen. -/
theorem c7_block_start_behavior (s2 : AnthropicHandlerV2.DecodeState)
    (s1 : AnthropicHandler.DecodeState) (idx : Nat) (t : String)
    (cs : List AnthropicChunk) :
    (AnthropicHandlerV2.run s2
        (.content_block_start idx (.text t) :: cs)).2
      = (if 0 < idx then [ApiStreamChunk.text "\n"] else [])
        ++ ApiStreamChunk.text t
          :: (AnthropicHandlerV2.run
              { s2 with fullText :=
                  (if 0 < idx then s2.fullText ++ "\n" else s2.fullText)
                    ++ t } cs).2
    ∧ (AnthropicHandler.run s1
        (.content_block_start idx (.text t) :: cs)).2
      = (AnthropicHandler.run
          { s1 with
            accumulatedText :=
              if s1.isFirstBlock then s1.accumulatedText
              else s1.accumulatedText ++ "\n",
            currentBlockText := t, isFirstBlock := false } cs).2 := by
  constructor
  · by_cases h : 0 < idx <;>
      simp [AnthropicHandlerV2.run, AnthropicHandlerV2.step, h]
  · simp [AnthropicHandler.run, AnthropicHandler.step]

/-- C7 counterexample: the original variant yields no immediate text event
at all for two text `content_block_start` chunks (only the terminal usage
event appears), and the duplicate variant yields a newline separator for
the first content block it ever emits merely because that chunk's `index`
is 1 — both contradict the claim. -/
theorem c7_counterexample :
    AnthropicHandler.createMessage
      [.content_block_start 0 (.text "A"),
       .content_block_start 1 (.text "B")]
      = [.usage 0 0 none none]
    ∧ AnthropicHandlerV2.createMessage [.content_block_start 1 (.text "A")]
      = [.text "\n", .text "A"] := by decide

/-- C10: a zero or absent backend cache token count is mapped to an absent
field — `jsOrUndefined` returns `none` exactly on `none` and `some 0` —
and consequently no usage event yielded by either Anthropic variant, and
no terminal usage state, ever carries a present zero cache count. -/
theorem c10_no_zero_cache_tokens :
    (∀ x : Option Nat, jsOrUndefined x = none ↔ x = none ∨ x = some 0)
    ∧ (∀ chunks : List AnthropicChunk,
        noZeroCacheTokens (AnthropicHandler.createMessage chunks) = true
        ∧ noZeroCacheTokens (AnthropicHandlerV2.createMessage chunks) = true
        ∧ ((AnthropicHandler.run AnthropicHandler.initDecodeState
              chunks).1.usage.cacheWriteTokens == some 0) = false
        ∧ ((AnthropicHandler.run AnthropicHandler.initDecodeState
              chunks).1.usage.cacheReadTokens == some 0) = false
        ∧ ((AnthropicHandlerV2.run AnthropicHandlerV2.initDecodeState
              chunks).1.usageData.cacheWriteTokens == some 0) = false
        ∧ ((AnthropicHandlerV2.run AnthropicHandlerV2.initDecodeState
              chunks).1.usageData.cacheReadTokens == some 0) = false) := by
  constructor
  · intro x
    cases x with
    | none => simp [jsOrUndefined]
    | some n => by_cases h : n = 0 <;> simp [jsOrUndefined, h]
  · intro chunks
    have h1 := anthropicRun_cache_state chunks AnthropicHandler.initDecodeState
      (by simp [AnthropicHandler.initDecodeState, createUsage])
      (by simp [AnthropicHandler.initDecodeState, createUsage])
    have h2 := anthropicV2Run_cache chunks AnthropicHandlerV2.initDecodeState
      (by simp [AnthropicHandlerV2.initDecodeState])
      (by simp [AnthropicHandlerV2.initDecodeState])
    refine ⟨?_, h2.1, ?_, ?_, ?_, ?_⟩
    · show noZeroCacheTokens
          ((AnthropicHandler.run AnthropicHandler.initDecodeState chunks).2
            ++ [.usage
                 (AnthropicHandler.run AnthropicHandler.initDecodeState
                   chunks).1.usage.inputTokens
                 (AnthropicHandler.run AnthropicHandler.initDecodeState
                   chunks).1.usage.outputTokens
                 (jsOrUndefined (AnthropicHandler.run
                   AnthropicHandler.initDecodeState
                   chunks).1.usage.cacheWriteTokens)
                 (jsOrUndefined (AnthropicHandler.run
                   AnthropicHandler.initDecodeState
                   chunks).1.usage.cacheReadTokens)]) = true
      rw [noZeroCacheTokens_append,
        allText_noZeroCache _ (anthropicRun_all_text chunks _)]
      simp [noZeroCacheTokens, jsOrUndefined_ne_zero]
    · simpa using h1.1
    · simpa using h1.2
    · simpa using h2.2.1
    · simpa using h2.2.2

/-- Role of a conversation message (`MessageParam.role`). -/
inductive Role : Type
  | user
  | assistant
deriving DecidableEq, Repr

/-- Payload of one content part of a message; parts other than text are
opaque passthrough for the providers. -/
inductive PartPayload : Type
  | text (text : String)
  | other (tag : String)
deriving DecidableEq, Repr

/-- Content of a canonical message: either a plain string body or a list
of content parts (`MessageParam.content`). -/
inductive MessageContent : Type
  | str (s : String)
  | parts (ps : List PartPayload)
deriving DecidableEq, Repr

/-- One canonical conversation message (`Anthropic.Messages.MessageParam`). -/
structure MessageParam : Type where
  role : Role
  content : MessageContent
deriving DecidableEq, Repr

/-- One content part of the wire request; `cache_control = true` models an
attached `{type: "ephemeral"}` cache directive. -/
structure WirePart : Type where
  payload : PartPayload
  cache_control : Bool
deriving DecidableEq, Repr

/-- Content of one wire-request message: the string body is forwarded
as-is for unannotated messages, and annotated messages always carry a part
list. -/
inductive WireContent : Type
  | str (s : String)
  | parts (ps : List WirePart)
deriving DecidableEq, Repr

/-- One message of the wire request. -/
structure WireMessage : Type where
  role : Role
  content : WireContent
deriving DecidableEq, Repr

/-- JavaScript `arr[i] ?? d` for an integer index into a number array:
out-of-range (including negative) indices give the default. -/
def jsArrayGetOr (l : List Nat) (i : Int) (d : Int) : Int :=
  if 0 ≤ i then
    match l.get? i.toNat with
    | some v => (v : Int)
    | none => d
  else d

/-- The `userMsgIndices` computation of both variants (anthropic.ts lines
72-75): indices of the messages whose role is `"user"`, in order. -/
def userMsgIndices (messages : List MessageParam) : List Nat :=
  messages.enum.filterMap fun im =>
    if im.2.role = Role.user then some im.1 else none

/-- The `lastUserMsgIndex` computation:
`userMsgIndices[userMsgIndices.length - 1] ?? -1`. -/
def lastUserMsgIndex (messages : List MessageParam) : Int :=
  jsArrayGetOr (userMsgIndices messages)
    ((userMsgIndices messages).length - 1) (-1)

/-- The `secondLastMsgUserIndex` computation:
`userMsgIndices[userMsgIndices.length - 2] ?? -1`. -/
def secondLastMsgUserIndex (messages : List MessageParam) : Int :=
  jsArrayGetOr (userMsgIndices messages)
    ((userMsgIndices messages).length - 2) (-1)

/-- Annotation applied by both variants to a selected message's content
(anthropic.ts lines 88-101): a string body is wrapped into a one-element
text part list carrying the ephemeral cache directive; a part list gets
the directive on exactly its last part (`contentIndex ===
message.content.length - 1`). -/
def annotateTurnContent : MessageContent → WireContent
  | .str s => .parts [{ payload := .text s, cache_control := true }]
  | .parts ps =>
      .parts (ps.enum.map fun jp =>
        { payload := jp.2, cache_control := decide (jp.1 = ps.length - 1) })

/-- Content of an unannotated message as it appears on the wire: unchanged,
with no part carrying a cache directive. -/
def plainWireContent : MessageContent → WireContent
  | .str s => .str s
  | .parts ps => .parts (ps.map fun p => { payload := p, cache_control := false })

/-- The message mapping of both variants' prompt-caching branch
(anthropic.ts lines 84-105 and 256-277, textually identical): the messages
at `lastUserMsgIndex` and `secondLastMsgUserIndex` get their content
annotated, every other message is forwarded unchanged. -/
def cacheMessages (messages : List MessageParam) : List WireMessage :=
  messages.enum.map fun im =>
    if (im.1 : Int) = lastUserMsgIndex messages
        ∨ (im.1 : Int) = secondLastMsgUserIndex messages then
      { role := im.2.role, content := annotateTurnContent im.2.content }
    else
      { role := im.2.role, content := plainWireContent im.2.content }

/-- Messages of the non-caching branch: forwarded unchanged. -/
def plainMessages (messages : List MessageParam) : List WireMessage :=
  messages.map fun m =>
    { role := m.role, content := plainWireContent m.content }

/-- Observer: does part `j` of message `i` of a wire-request message list
carry the ephemeral cache directive? -/
def wireContentCachedIdx (c : WireContent) (j : Nat) : Bool :=
  match c with
  | .str _ => false
  | .parts ps =>
      match ps.get? j with
      | some p => p.cache_control
      | none => false

/-- Observer: does part `j` of message `i` carry the cache directive? -/
def annotatedAt (ms : List WireMessage) (i j : Nat) : Bool :=
  match ms.get? i with
  | some m => wireContentCachedIdx m.content j
  | none => false

/-- Follows the spec's words (claim C2): the index of the last content
part of a message once a string body has been wrapped into a one-part
list — `none` when the message has an empty part list. -/
def wrappedLastIdx : MessageContent → Option Nat
  | .str _ => some 0
  | .parts ps => if ps.length = 0 then none else some (ps.length - 1)

/-- Follows the spec's words (claim C2): part `j` of message `i` should be
annotated exactly when `i` is the index of the last or second-to-last user
message (none when fewer exist) and `j` is the index of that message's
last content part after wrapping. -/
def specAnnotatedAt (messages : List MessageParam) (i j : Nat) : Bool :=
  decide (i ∈ (userMsgIndices messages).reverse.take 2)
    && match messages.get? i with
       | some m => decide (wrappedLastIdx m.content = some j)
       | none => false

/-- A `?? -1` indexed read at a negative index gives the default. -/
lemma jsArrayGetOr_neg (l : List Nat) (i : Int) (h : i < 0) (d : Int) :
    jsArrayGetOr l i d = d := by
  rw [jsArrayGetOr, if_neg (by omega)]

/-- A `?? -1` indexed read at an in-range natural index gives the element. -/
lemma jsArrayGetOr_natCast (l : List Nat) (k : Nat) (v : Nat)
    (hv : l[k]? = some v) (d : Int) : jsArrayGetOr l (k : Int) d = v := by
  rw [jsArrayGetOr, if_pos (by omega)]
  simp [List.get?_eq_getElem?, hv]

/-- JavaScript's `arr[arr.length - 1] ?? -1` and `arr[arr.length - 2] ?? -1`
select exactly the members of `arr.reverse.take 2`: natural-number `i`
equals one of the two reads exactly when `i` is among the last two
elements. -/
lemma jsLastTwo (l : List Nat) (i : Nat) :
    ((i : Int) = jsArrayGetOr l ((l.length : Int) - 1) (-1)
      ∨ (i : Int) = jsArrayGetOr l ((l.length : Int) - 2) (-1))
      ↔ i ∈ l.reverse.take 2 := by
  cases hr : l.reverse with
  | nil =>
      have hl : l = [] := by simpa using congrArg List.reverse hr
      rw [hl]
      simp only [List.length_nil, List.take_nil, List.not_mem_nil, iff_false]
      rw [jsArrayGetOr_neg _ _ (by omega), jsArrayGetOr_neg _ _ (by omega)]
      omega
  | cons a t =>
      have hl : l = t.reverse ++ [a] := by
        simpa using congrArg List.reverse hr
      cases t with
      | nil =>
          simp only [List.reverse_nil, List.nil_append] at hl
          rw [hl]
          have h1 : ((([a] : List Nat).length : Int) - 1) = ((0 : Nat) : Int) := by
            simp
          rw [h1, jsArrayGetOr_natCast [a] 0 a (by simp) (-1),
            jsArrayGetOr_neg _ _ (by simp) (-1)]
          simp only [List.take_succ_cons, List.take_nil, List.mem_singleton]
          omega
      | cons b t2 =>
          simp only [List.reverse_cons] at hl
          have hlen : l.length = t2.length + 2 := by
            rw [hl]; simp
          have h1 : ((l.length : Int) - 1) = ((t2.length + 1 : Nat) : Int) := by
            rw [hlen]; push_cast; ring
          have h2 : ((l.length : Int) - 2) = ((t2.length : Nat) : Int) := by
            rw [hlen]; push_cast; ring
          have hget1 : l[t2.length + 1]? = some a := by
            rw [hl, List.getElem?_append_right (by simp)]
            simp
          have hget2 : l[t2.length]? = some b := by
            rw [hl, List.getElem?_append_left (by simp),
              List.getElem?_append_right (by simp)]
            simp
          rw [h1, h2, jsArrayGetOr_natCast l _ a hget1 (-1),
            jsArrayGetOr_natCast l _ b hget2 (-1)]
          simp only [List.take_succ_cons, List.take_zero, List.mem_cons,
            List.mem_singleton, List.not_mem_nil, or_false]
          omega

/-- Capability flags of a model descriptor (`ModelInfo` of
`src/shared/api.ts`); only the fields consulted by the two providers are
carried: `maxTokens` and the prompt-cache capability flag. -/
structure ModelInfo : Type where
  maxTokens : Option Nat
  supportsPromptCache : Bool
deriving DecidableEq, Repr

/-- Configuration options consumed by the handlers (`ApiHandlerOptions`);
only the fields the embedded functions read are carried. -/
structure ApiHandlerOptions : Type where
  apiModelId : Option String
  openAiModelId : Option String
  includeStreamOptions : Option Bool
deriving DecidableEq, Repr

/-- The model ids of the prompt-caching `switch` branch shared by both
Anthropic variants (anthropic.ts lines 68-71 and 240-243). -/
def cacheCapableIds : List String :=
  ["claude-3-5-sonnet-20241022", "claude-3-5-haiku-20241022",
   "claude-3-opus-20240229", "claude-3-haiku-20240307"]

/-- Modelled from the spec: the Anthropic model table `anthropicModels`
lives in `src/shared/api.ts`, which is not part of the provided sources.
The spec (§4.1) only requires a fixed table of descriptors with capability
flags; the keys used here are the model ids named in the source's
prompt-caching `switch`, with `supportsPromptCache` true exactly for those
ids and representative `maxTokens` values. -/
def anthropicModels : List (String × ModelInfo) :=
  [("claude-3-5-sonnet-20241022",
    { maxTokens := some 8192, supportsPromptCache := true }),
   ("claude-3-5-haiku-20241022",
    { maxTokens := some 8192, supportsPromptCache := true }),
   ("claude-3-opus-20240229",
    { maxTokens := some 4096, supportsPromptCache := true }),
   ("claude-3-haiku-20240307",
    { maxTokens := some 4096, supportsPromptCache := true })]

/-- Modelled from the spec: the fixed per-backend default model id
(`anthropicDefaultModelId` of `src/shared/api.ts`, not part of the
provided sources). -/
def anthropicDefaultModelId : String := "claude-3-5-sonnet-20241022"

/-- Modelled from the spec: the default descriptor
`anthropicModels[anthropicDefaultModelId]`, resolved statically. -/
def anthropicDefaultModelInfo : ModelInfo :=
  { maxTokens := some 8192, supportsPromptCache := true }

/-- Modelled from the spec: `openAiModelInfoSaneDefaults` of
`src/shared/api.ts` (not part of the provided sources) — the fixed
capability defaults paired with any requested OpenAI model id. -/
def openAiModelInfoSaneDefaults : ModelInfo :=
  { maxTokens := none, supportsPromptCache := false }

/-- The original variant's `getModel` (anthropic.ts lines 44-54): a truthy
configured id that is a key of the table resolves to its entry; anything
else resolves to the fixed default. -/
def AnthropicHandler.getModel (opts : ApiHandlerOptions) :
    String × ModelInfo :=
  match opts.apiModelId with
  | some mid =>
      if mid ≠ "" then
        match anthropicModels.lookup mid with
        | some info => (mid, info)
        | none => (anthropicDefaultModelId, anthropicDefaultModelInfo)
      else (anthropicDefaultModelId, anthropicDefaultModelInfo)
  | none => (anthropicDefaultModelId, anthropicDefaultModelInfo)

/-- The duplicate variant's `getModel` (anthropic.ts lines 380-387),
textually identical to the original's. -/
def AnthropicHandlerV2.getModel (opts : ApiHandlerOptions) :
    String × ModelInfo :=
  match opts.apiModelId with
  | some mid =>
      if mid ≠ "" then
        match anthropicModels.lookup mid with
        | some info => (mid, info)
        | none => (anthropicDefaultModelId, anthropicDefaultModelInfo)
      else (anthropicDefaultModelId, anthropicDefaultModelInfo)
  | none => (anthropicDefaultModelId, anthropicDefaultModelInfo)

/-- `OpenAiHandler.getModel` (openai.ts lines 85-90): the requested id
(empty string when absent) paired with the fixed sane defaults. -/
def OpenAiHandler.getModel (opts : ApiHandlerOptions) :
    String × ModelInfo :=
  (opts.openAiModelId.getD "", openAiModelInfoSaneDefaults)

/-- System-prompt field of an Anthropic wire request: the original variant
sends a plain string, the duplicate variant sends a list of text blocks
each with an optional ephemeral cache directive (`Bool`). -/
inductive SystemField : Type
  | str (s : String)
  | blocks (bs : List (String × Bool))
deriving DecidableEq, Repr

/-- Anthropic wire request, as assembled by both variants' request
builds. -/
structure AnthropicRequest : Type where
  model : String
  max_tokens : Nat
  temperature : Nat
  system : SystemField
  messages : List WireMessage
  stream : Bool
  promptCachingBetaHeader : Bool
deriving DecidableEq, Repr

/-- The original variant's request build (anthropic.ts lines 67-125),
parametrized by the resolved model id and descriptor: the prompt-caching
branch annotates the messages, sends a plain-string system prompt and the
beta header; the default branch forwards everything unannotated with no
header.  Both branches set `max_tokens` with the `|| 8192` fallback,
`temperature: 0` and `stream: true`. -/
def AnthropicHandler.buildRequest (modelId : String) (info : ModelInfo)
    (systemPrompt : String) (messages : List MessageParam) :
    AnthropicRequest :=
  if modelId ∈ cacheCapableIds then
    { model := modelId, max_tokens := jsOrNat info.maxTokens 8192,
      temperature := 0, system := .str systemPrompt,
      messages := cacheMessages messages, stream := true,
      promptCachingBetaHeader := true }
  else
    { model := modelId, max_tokens := jsOrNat info.maxTokens 8192,
      temperature := 0, system := .str systemPrompt,
      messages := plainMessages messages, stream := true,
      promptCachingBetaHeader := false }

/-- The duplicate variant's request build (anthropic.ts lines 238-307):
identical message annotation, but the system prompt is sent as a one-block
content list — carrying the ephemeral cache directive in the
prompt-caching branch — and the beta header comes from an inner `switch`
over the same id list. -/
def AnthropicHandlerV2.buildRequest (modelId : String) (info : ModelInfo)
    (systemPrompt : String) (messages : List MessageParam) :
    AnthropicRequest :=
  if modelId ∈ cacheCapableIds then
    { model := modelId, max_tokens := jsOrNat info.maxTokens 8192,
      temperature := 0, system := .blocks [(systemPrompt, true)],
      messages := cacheMessages messages, stream := true,
      promptCachingBetaHeader := decide (modelId ∈ cacheCapableIds) }
  else
    { model := modelId, max_tokens := jsOrNat info.maxTokens 8192,
      temperature := 0, system := .blocks [(systemPrompt, false)],
      messages := plainMessages messages, stream := true,
      promptCachingBetaHeader := false }

/-- OpenAI wire request (openai.ts lines 52-61).  The SDK request type has
an optional `max_tokens` field which the build never sets, embedded as an
`Option Nat` that stays `none`; `convertToOpenAiMessages` lives outside the
provided sources, so the request carries the system prompt and the
canonical messages it would convert. -/
structure OpenAiRequest : Type where
  model : String
  systemPrompt : String
  messages : List MessageParam
  temperature : Nat
  stream : Bool
  stream_options_include_usage : Option Bool
  max_tokens : Option Nat
deriving DecidableEq, Repr

/-- The OpenAI request build: `temperature: 0`, `stream: true`, model id
from the options (empty when absent), and `stream_options: {include_usage:
true}` exactly when `includeStreamOptions ?? true` holds; no `max_tokens`
is ever set. -/
def OpenAiHandler.buildRequest (opts : ApiHandlerOptions)
    (systemPrompt : String) (messages : List MessageParam) : OpenAiRequest :=
  let base : OpenAiRequest :=
    { model := opts.openAiModelId.getD "", systemPrompt := systemPrompt,
      messages := messages, temperature := 0, stream := true,
      stream_options_include_usage := none, max_tokens := none }
  if opts.includeStreamOptions.getD true then
    { base with stream_options_include_usage := some true }
  else base

/-- Indexed read through `enum.map`: position `i` of the mapped
enumeration is the image of position `i` of the underlying list. -/
lemma getElem?_enum_map {α β : Type} (l : List α) (f : Nat × α → β)
    (i : Nat) :
    (l.enum.map f)[i]? = Option.map (fun a => f (i, a)) l[i]? := by
  rw [List.getElem?_map, List.getElem?_enum, Option.map_map]
  rfl

/-- The annotated content of a selected message carries the cache
directive exactly at the wrapped last part index. -/
lemma wireContentCachedIdx_annotate (c : MessageContent) (j : Nat) :
    wireContentCachedIdx (annotateTurnContent c) j
      = decide (wrappedLastIdx c = some j) := by
  cases c with
  | str s =>
      cases j with
      | zero => rfl
      | succ j =>
          simp [annotateTurnContent, wireContentCachedIdx, wrappedLastIdx]
  | parts ps =>
      simp only [annotateTurnContent, wireContentCachedIdx, wrappedLastIdx]
      rw [List.get?_eq_getElem?, getElem?_enum_map]
      cases hj : ps[j]? with
      | none =>
          have hlen : ps.length ≤ j := List.getElem?_eq_none_iff.mp hj
          simp only [Option.map_none']
          rw [eq_comm, decide_eq_false_iff_not]
          by_cases h0 : ps.length = 0
          · simp [h0]
          · rw [if_neg h0]
            simp only [Option.some.injEq]
            omega
      | some p =>
          have hjlen : j < ps.length :=
            (List.getElem?_eq_some_iff.mp hj).1
          simp only [Option.map_some']
          rw [decide_eq_decide]
          rw [if_neg (by omega)]
          simp only [Option.some.injEq]
          omega

/-- Unannotated wire content carries no cache directive anywhere. -/
lemma wireContentCachedIdx_plain (c : MessageContent) (j : Nat) :
    wireContentCachedIdx (plainWireContent c) j = false := by
  cases c with
  | str s => rfl
  | parts ps =>
      simp only [plainWireContent, wireContentCachedIdx]
      rw [List.get?_eq_getElem?, List.getElem?_map]
      cases ps[j]? <;> simp

/-- The non-caching branch's message list is nowhere annotated. -/
lemma annotatedAt_plainMessages (msgs : List MessageParam) (i j : Nat) :
    annotatedAt (plainMessages msgs) i j = false := by
  unfold annotatedAt plainMessages
  rw [List.get?_eq_getElem?, List.getElem?_map]
  cases msgs[i]? with
  | none => rfl
  | some m => simp [wireContentCachedIdx_plain]

/-- The prompt-caching message mapping annotates exactly the parts the
spec's cache-hint rule predicts. -/
lemma annotatedAt_cacheMessages (msgs : List MessageParam) (i j : Nat) :
    annotatedAt (cacheMessages msgs) i j = specAnnotatedAt msgs i j := by
  have hiff := jsLastTwo (userMsgIndices msgs) i
  unfold annotatedAt cacheMessages specAnnotatedAt
  simp only [List.get?_eq_getElem?, getElem?_enum_map]
  cases hm : msgs[i]? with
  | none => simp [hm]
  | some m =>
      simp only [hm, Option.map_some']
      by_cases hsel : ((i : Int) = lastUserMsgIndex msgs
          ∨ (i : Int) = secondLastMsgUserIndex msgs)
      · rw [if_pos hsel]
        have hmem : i ∈ (userMsgIndices msgs).reverse.take 2 :=
          hiff.mp hsel
        show wireContentCachedIdx (annotateTurnContent m.content) j = _
        rw [wireContentCachedIdx_annotate]
        simp [hmem]
      · rw [if_neg hsel]
        have hmem : i ∉ (userMsgIndices msgs).reverse.take 2 :=
          fun hc => hsel (hiff.mpr hc)
        show wireContentCachedIdx (plainWireContent m.content) j = _
        rw [wireContentCachedIdx_plain]
        simp [hmem]

/-- C2 (amended): within the messages list both variants' wire requests
annotate a part exactly when the model id is in the prompt-caching id list
and the part is the wrapped last content part of the last or second-to-last
user message; additionally the original variant sends the system prompt as
a plain unannotated string, while the duplicate variant sends it as a
one-block list whose block carries the ephemeral cache directive exactly
in the prompt-caching branch. -/
theorem c2_cache_hints (mid : String) (info : ModelInfo) (sys : String)
    (msgs : List MessageParam) (i j : Nat) :
    annotatedAt ((AnthropicHandler.buildRequest mid info sys msgs).messages)
        i j
      = (decide (mid ∈ cacheCapableIds) && specAnnotatedAt msgs i j)
    ∧ annotatedAt
        ((AnthropicHandlerV2.buildRequest mid info sys msgs).messages) i j
      = (decide (mid ∈ cacheCapableIds) && specAnnotatedAt msgs i j)
    ∧ (AnthropicHandler.buildRequest mid info sys msgs).system
      = SystemField.str sys
    ∧ (AnthropicHandlerV2.buildRequest mid info sys msgs).system
      = SystemField.blocks [(sys, decide (mid ∈ cacheCapableIds))] := by
  by_cases h : mid ∈ cacheCapableIds <;>
    simp [AnthropicHandler.buildRequest, AnthropicHandlerV2.buildRequest, h,
      annotatedAt_cacheMessages, annotatedAt_plainMessages]

/-- C2 counterexample: the claim states that beyond the two selected user
messages "no other message or part" of the wire request is annotated, but
in the prompt-caching branch the duplicate variant also attaches the
ephemeral cache directive to the system prompt's single content block, a
part outside the messages list. -/
theorem c2_counterexample :
    (AnthropicHandlerV2.buildRequest "claude-3-5-sonnet-20241022"
      { maxTokens := some 8192, supportsPromptCache := true } "sys"
      [{ role := .user, content := .str "hello" }]).system
      = SystemField.blocks [("sys", true)] := by decide

/-- C8 (amended): every Anthropic request build (both variants, both
branches) sets `stream = true`, `temperature = 0` and `max_tokens` equal to
the resolved descriptor's max-token value with the hard-coded 8192 fallback
when that value is unset or zero; the OpenAI request build sets
`stream = true` and `temperature = 0` but never sets a maximum-output-token
limit. -/
theorem c8_request_parameters (mid : String) (info : ModelInfo)
    (sys : String) (msgs : List MessageParam) (opts : ApiHandlerOptions) :
    (AnthropicHandler.buildRequest mid info sys msgs).stream = true
    ∧ (AnthropicHandler.buildRequest mid info sys msgs).temperature = 0
    ∧ (AnthropicHandler.buildRequest mid info sys msgs).max_tokens
      = jsOrNat info.maxTokens 8192
    ∧ (AnthropicHandlerV2.buildRequest mid info sys msgs).stream = true
    ∧ (AnthropicHandlerV2.buildRequest mid info sys msgs).temperature = 0
    ∧ (AnthropicHandlerV2.buildRequest mid info sys msgs).max_tokens
      = jsOrNat info.maxTokens 8192
    ∧ (OpenAiHandler.buildRequest opts sys msgs).stream = true
    ∧ (OpenAiHandler.buildRequest opts sys msgs).temperature = 0
    ∧ (OpenAiHandler.buildRequest opts sys msgs).max_tokens = none := by
  by_cases h : mid ∈ cacheCapableIds <;>
    by_cases h2 : opts.includeStreamOptions.getD true = true <;>
      simp [AnthropicHandler.buildRequest, AnthropicHandlerV2.buildRequest,
        OpenAiHandler.buildRequest, h, h2]

/-- C8 counterexample: the claim requires every request build, including
the OpenAI handler's, to set a maximum-output-token limit; the request the
OpenAI handler actually builds leaves the SDK's optional `max_tokens`
field unset. -/
theorem c8_counterexample :
    (OpenAiHandler.buildRequest
      { apiModelId := none, openAiModelId := some "gpt-4o",
        includeStreamOptions := none } "you are helpful" []).max_tokens
      = none := by decide

/-- C9: model resolution is total and never fails.  For the Anthropic
handler a present, truthy id that is a key of the model table resolves to
that table entry, and an absent, empty or unknown id resolves to the fixed
default descriptor; the OpenAI handler pairs the requested id (empty when
absent) with its fixed sane-defaults descriptor.  All resolvers are total
Lean functions: no input can make them fail. -/
theorem c9_model_resolution :
    (∀ (opts : ApiHandlerOptions) (mid : String) (info : ModelInfo),
        opts.apiModelId = some mid → mid ≠ "" →
        anthropicModels.lookup mid = some info →
        AnthropicHandler.getModel opts = (mid, info))
    ∧ (∀ (opts : ApiHandlerOptions) (mid : String),
        opts.apiModelId = some mid → anthropicModels.lookup mid = none →
        AnthropicHandler.getModel opts
          = (anthropicDefaultModelId, anthropicDefaultModelInfo))
    ∧ (∀ opts : ApiHandlerOptions,
        opts.apiModelId = none ∨ opts.apiModelId = some "" →
        AnthropicHandler.getModel opts
          = (anthropicDefaultModelId, anthropicDefaultModelInfo))
    ∧ (∀ opts : ApiHandlerOptions,
        OpenAiHandler.getModel opts
          = (opts.openAiModelId.getD "", openAiModelInfoSaneDefaults)) := by
  refine ⟨?_, ?_, ?_, ?_⟩
  · intro opts mid info hmid hne hlook
    unfold AnthropicHandler.getModel
    rw [hmid]
    simp [hne, hlook]
  · intro opts mid hmid hlook
    unfold AnthropicHandler.getModel
    rw [hmid]
    by_cases hne : mid = "" <;> simp [hne, hlook]
  · intro opts h
    unfold AnthropicHandler.getModel
    cases h with
    | inl h => rw [h]
    | inr h => rw [h]; simp
  · intro opts
    rfl

/-- C9 witness: the resolution contract evaluated at concrete options — a
known id resolves to its table entry, an unknown id degrades to the
default descriptor. -/
theorem c9_model_resolution_witness :
    AnthropicHandler.getModel
      { apiModelId := some "claude-3-opus-20240229", openAiModelId := none,
        includeStreamOptions := none }
      = ("claude-3-opus-20240229",
         { maxTokens := some 4096, supportsPromptCache := true })
    ∧ AnthropicHandler.getModel
        { apiModelId := some "not-a-known-model", openAiModelId := none,
          includeStreamOptions := none }
        = (anthropicDefaultModelId, anthropicDefaultModelInfo) :=
  ⟨c9_model_resolution.1
      { apiModelId := some "claude-3-opus-20240229", openAiModelId := none,
        includeStreamOptions := none }
      "claude-3-opus-20240229"
      { maxTokens := some 4096, supportsPromptCache := true }
      rfl (by decide) (by decide),
   c9_model_resolution.2.1
      { apiModelId := some "not-a-known-model", openAiModelId := none,
        includeStreamOptions := none }
      "not-a-known-model" rfl (by decide)⟩

/-- C4 (amended): the two variants are not behaviorally equivalent.  Their
model resolvers agree on every input, but their decoders produce different
canonical event sequences — already on a single text `content_block_start`
chunk the original yields only its terminal usage event while the
duplicate yields the block's text and no terminal usage. -/
theorem c4_variants_divergence :
    (∀ opts : ApiHandlerOptions,
        AnthropicHandler.getModel opts = AnthropicHandlerV2.getModel opts)
    ∧ decide (AnthropicHandler.createMessage
          [.content_block_start 0 (.text "A")]
        = AnthropicHandlerV2.createMessage
          [.content_block_start 0 (.text "A")]) = false := by
  refine ⟨fun opts => rfl, by decide⟩

/-- C4 counterexample: a concrete chunk sequence on which the two variants'
`createMessage` yield different canonical event sequences — the original
yields `[usage 0 0]`, the duplicate yields `[text "A"]`. -/
theorem c4_counterexample :
    AnthropicHandler.createMessage [.content_block_start 0 (.text "A")]
      = [.usage 0 0 none none]
    ∧ AnthropicHandlerV2.createMessage [.content_block_start 0 (.text "A")]
      = [.text "A"]
    ∧ decide (AnthropicHandler.createMessage
          [.content_block_start 0 (.text "A")]
        = AnthropicHandlerV2.createMessage
          [.content_block_start 0 (.text "A")]) = false := by decide
